import Mathlib

/-!
Shallow embedding of `layabauth/flask.py`: the `requires_authentication`
decorator's inner `wrapper`, the `_extract_token_body` helper, and the
`UserIdFilter` logging filter.

The collaborators `_get_token`, `keys` and `validate` live in
`layabauth._http`, which is part of this repository but not present under
the sources given; following the spec they are treated as abstract
collaborator functions, gathered in a `Collaborators` record.  Python
exceptions are modelled with `Except`: `jose.exceptions.JOSEError` carries
its `str(e)` rendering, `werkzeug.exceptions.Unauthorized` carries an
optional `description`, and `ValueError` (the class of
`json.JSONDecodeError` raised by `json.loads` on a payload that is not
valid JSON) is kept distinct because the `except exceptions.JOSEError`
clauses in the source do not catch it.
-/

set_option autoImplicit false

/-- Claims mapping (a decoded JWT body): claim name to value. -/
abbrev Claims := List (String × String)

/-- Request headers, as a name/value mapping.  Opaque to the embedded code:
only the `_get_token` collaborator reads them. -/
abbrev Headers := List (String × String)

/-- Opaque key material returned by the `keys` collaborator. -/
abbrev Key := String

/-- A `jose.exceptions.JOSEError`; `msg` models `str(e)`. -/
structure JOSEError where
  msg : String
deriving Repr, DecidableEq

/-- A Python `ValueError`, e.g. `json.JSONDecodeError` raised by
`json.loads`; not a subclass of `JOSEError`. -/
structure ValueError where
  msg : String
deriving Repr, DecidableEq

/-- A `werkzeug.exceptions.Unauthorized`, with its optional `description`
argument (`none` models the default description of `Unauthorized()`). -/
inductive HTTPException where
  | unauthorized (description : Option String)
deriving Repr, DecidableEq

/-- The per-request context `flask.g`.  Each field is `none` when the
attribute has never been assigned (a fresh request context); `token` is set
to the value returned by `_get_token`, itself an `Option String` because
`_get_token` may return Python `None`. -/
structure GContext where
  token : Option (Option String) := none
  token_body : Option Claims := none
deriving Repr, DecidableEq

/-- A fresh `flask.g`, with neither attribute assigned. -/
def GContext.empty : GContext := {}

/-- The collaborator functions used by `flask.py`.  `_get_token`, `keys`
and `validate` are the `layabauth._http` helpers (repository code not in
the given sources); `get_unverified_claims` is `jose.jws.get_unverified_claims`
and `json_loads` is `json.loads` restricted to the object case.

`keys` is modelled from the spec: the spec states that any key-retrieval
failure propagates as unauthorized, and since the wrapper's `except` clause
only converts `JOSEError`, the failures of `keys` are modelled as
`JOSEError` values.  `validate` raises a cryptography/claims error, i.e. a
`JOSEError`, per the spec's validation-collaborator contract.
`get_unverified_claims` fails with `JOSEError` (jose's `JWSError`) on a
malformed token, while `json_loads` fails with `ValueError` on a payload
that is not valid JSON. -/
structure Collaborators where
  _get_token : Headers → Option String
  keys : String → Except JOSEError Key
  validate : String → Key → Except JOSEError Claims
  get_unverified_claims : String → Except JOSEError String
  json_loads : String → Except ValueError Claims

/-- Python truthiness of an `Optional[str]` value: `None` and the empty
string are falsy. -/
def falsyOpt : Option String → Bool
  | none => true
  | some s => s == ""

/-- Python `dict.get(k, d)` on a claims mapping. -/
def claimsGet (body : Claims) (k : String) (d : String) : String :=
  match body.lookup k with
  | some v => v
  | none => d

/-- The inner `wrapper` of `requires_authentication(jwks_uri)` applied to a
handler `func`.  Returns the outcome (the handler's result, or the raised
`Unauthorized`), the updated `flask.g`, and the list of argument tuples the
handler was invoked with (`args` stands for the original
`*func_args, **func_kwargs`).

Source, `flask.py` lines 24-33: assign `flask.g.token = _get_token(...)`;
if falsy raise `Unauthorized()` (not a `JOSEError`, so it escapes the
`except` clause with no description); fetch `keys(jwks_uri)`; set
`flask.g.token_body = validate(flask.g.token, key)`; a `JOSEError` raised
by either collaborator becomes `Unauthorized(description=str(e))`; finally
call `func` with the original arguments. -/
def requires_authentication_wrapper {α β : Type} (c : Collaborators)
    (jwks_uri : String) (func : α → β) (headers : Headers) (g : GContext)
    (args : α) : Except HTTPException β × GContext × List α :=
  let t := c._get_token headers
  let g1 : GContext := { g with token := some t }
  match t with
  | none => (.error (.unauthorized none), g1, [])
  | some s =>
    if s == "" then
      (.error (.unauthorized none), g1, [])
    else
      match c.keys jwks_uri with
      | .error e => (.error (.unauthorized (some e.msg)), g1, [])
      | .ok key =>
        match c.validate s key with
        | .error e => (.error (.unauthorized (some e.msg)), g1, [])
        | .ok body =>
          (.ok (func args), { g1 with token_body := some body }, [args])

/-- The unverified fallback decode inside `_extract_token_body`
(`flask.py` lines 44-51): extract the token; a falsy token yields `{}`;
otherwise `json.loads(jws.get_unverified_claims(token=token))` with
`except exceptions.JOSEError: return {}`.  A `ValueError` raised by
`json.loads` is *not* caught and propagates. -/
def _fresh_decode (c : Collaborators) (headers : Headers) :
    Except ValueError Claims :=
  match c._get_token headers with
  | none => .ok []
  | some t =>
    if t == "" then .ok []
    else
      match c.get_unverified_claims t with
      | .error _ => .ok []
      | .ok payload =>
        match c.json_loads payload with
        | .error e => .error e
        | .ok body => .ok body

/-- `_extract_token_body` (`flask.py` lines 40-51):
`if getattr(flask.g, "token_body", None): return flask.g.token_body` —
Python truthiness, so an unset attribute *and* an empty stored mapping both
fall through to the fresh unverified decode. -/
def _extract_token_body (c : Collaborators) (headers : Headers)
    (g : GContext) : Except ValueError Claims :=
  match g.token_body with
  | some body => if body.isEmpty then _fresh_decode c headers else .ok body
  | none => _fresh_decode c headers

/-- A log record; `user_id` is `none` before the filter has assigned the
attribute. -/
structure LogRecord where
  msg : String := ""
  user_id : Option String := none
deriving Repr, DecidableEq

/-- The `UserIdFilter` logging filter's construction-time state. -/
structure UserIdFilter where
  token_field_name : String
  name : String := ""
deriving Repr, DecidableEq

/-- `UserIdFilter.filter` (`flask.py` lines 64-70).  `ctx` is `none` when
`flask.has_request_context()` is false, and otherwise carries the active
request's headers and `flask.g`.  Sets
`record.user_id = _extract_token_body().get(self.token_field_name, "")`
inside a request context and `""` outside one, then returns `True`; an
exception escaping `_extract_token_body` propagates out of `filter`. -/
def UserIdFilter.filter (f : UserIdFilter) (c : Collaborators)
    (ctx : Option (Headers × GContext)) (record : LogRecord) :
    Except ValueError (LogRecord × Bool) :=
  match ctx with
  | none => .ok ({ record with user_id := some "" }, true)
  | some (headers, g) =>
    match _extract_token_body c headers g with
    | .error e => .error e
    | .ok body =>
      .ok ({ record with user_id := some (claimsGet body f.token_field_name "") },
           true)

/-! Concrete collaborator instances used by the closed witness and
counterexample theorems. -/

/-- Collaborators for which `"tok"` is the only accepted token: extraction
reads the `Authorization` header, the JWKS fetch succeeds, and validation
accepts exactly `"tok"` with claims `{"sub": "user-42"}`. -/
def goodCollab : Collaborators where
  _get_token := fun h => h.lookup "Authorization"
  keys := fun _ => .ok "jwk"
  validate := fun t _ =>
    if t == "tok" then .ok [("sub", "user-42")] else .error ⟨"bad signature"⟩
  get_unverified_claims := fun _ => .ok "\x7b\x22sub\x22: \x22user-42\x22\x7d"
  json_loads := fun s =>
    if s == "\x7b\x22sub\x22: \x22user-42\x22\x7d" then .ok [("sub", "user-42")]
    else .error ⟨"Expecting value: line 1 column 1 (char 0)"⟩

/-- Collaborators whose token extraction finds nothing. -/
def noTokenCollab : Collaborators where
  _get_token := fun _ => none
  keys := fun _ => .ok "jwk"
  validate := fun _ _ => .ok []
  get_unverified_claims := fun _ => .ok "{}"
  json_loads := fun _ => .ok []

/-- Collaborators whose JWKS key retrieval fails. -/
def keysFailCollab : Collaborators where
  _get_token := fun h => h.lookup "Authorization"
  keys := fun _ => .error ⟨"could not fetch JWKS document"⟩
  validate := fun _ _ => .ok []
  get_unverified_claims := fun _ => .ok "{}"
  json_loads := fun _ => .ok []

/-- Collaborators presenting a well-formed JWS whose payload is not valid
JSON: `jws.get_unverified_claims` succeeds and returns the raw payload
`"hello"`, and `json.loads` then raises a `ValueError`. -/
def nonJsonPayloadCollab : Collaborators where
  _get_token := fun h => h.lookup "Authorization"
  keys := fun _ => .ok "jwk"
  validate := fun _ _ => .error ⟨"bad signature"⟩
  get_unverified_claims := fun _ => .ok "hello"
  json_loads := fun s =>
    if s == "{}" then .ok []
    else .error ⟨"Expecting value: line 1 column 1 (char 0)"⟩

/-- Collaborators whose fresh unverified decode yields `{"sub": "fresh"}`;
used to observe whether the filter performs a fresh decode. -/
def freshDecodeCollab : Collaborators where
  _get_token := fun _ => some "tok"
  keys := fun _ => .ok "jwk"
  validate := fun _ _ => .ok []
  get_unverified_claims := fun _ => .ok "\x7b\x22sub\x22: \x22fresh\x22\x7d"
  json_loads := fun _ => .ok [("sub", "fresh")]

/-- C1: for every request whose token extracts non-empty and whose key
fetch and validation succeed, the wrapper calls the handler exactly once
with the original arguments unchanged, returns its result, and leaves the
request context with `token` holding the raw extracted token string and
`token_body` equal to the claims mapping returned by `validate`. -/
theorem wrapper_valid_token_calls_handler_once {α β : Type}
    (c : Collaborators) (uri : String) (func : α → β) (headers : Headers)
    (args : α) (t : String) (k : Key) (body : Claims)
    (ht : c._get_token headers = some t) (hne : t ≠ "")
    (hk : c.keys uri = .ok k) (hv : c.validate t k = .ok body) :
    requires_authentication_wrapper c uri func headers GContext.empty args =
      (.ok (func args),
       { token := some (some t), token_body := some body }, [args]) := by
  simp [requires_authentication_wrapper, GContext.empty, ht, hne, hk, hv]

/-- C1 witness at a concrete request. -/
theorem wrapper_valid_token_calls_handler_once_witness :
    requires_authentication_wrapper goodCollab "https://jwks.example" (· + 1)
      [("Authorization", "tok")] GContext.empty (5 : Nat) =
      (.ok 6,
       { token := some (some "tok"), token_body := some [("sub", "user-42")] },
       [5]) :=
  wrapper_valid_token_calls_handler_once goodCollab "https://jwks.example"
    (· + 1) [("Authorization", "tok")] 5 "tok" "jwk" [("sub", "user-42")]
    rfl (by decide) rfl rfl

/-- C2: for every request in which token extraction yields a falsy result
(absent or empty), the wrapper raises `Unauthorized` (with the default
description) and never invokes the handler. -/
theorem wrapper_no_token_unauthorized {α β : Type} (c : Collaborators)
    (uri : String) (func : α → β) (headers : Headers) (g : GContext)
    (args : α) (h : falsyOpt (c._get_token headers) = true) :
    (requires_authentication_wrapper c uri func headers g args).1 =
        .error (.unauthorized none) ∧
      (requires_authentication_wrapper c uri func headers g args).2.2 = [] := by
  cases ht : c._get_token headers with
  | none => simp [requires_authentication_wrapper, ht]
  | some s =>
    have hs : s == "" := by simpa [falsyOpt, ht] using h
    simp [requires_authentication_wrapper, ht, hs]

/-- C2 witness at a concrete request with no `Authorization` header. -/
theorem wrapper_no_token_unauthorized_witness :
    (requires_authentication_wrapper noTokenCollab "https://jwks.example"
          (· + 1) [] GContext.empty (5 : Nat)).1 =
        .error (.unauthorized none) ∧
      (requires_authentication_wrapper noTokenCollab "https://jwks.example"
          (· + 1) [] GContext.empty (5 : Nat)).2.2 = [] :=
  wrapper_no_token_unauthorized noTokenCollab "https://jwks.example" (· + 1)
    [] GContext.empty 5 rfl

/-- C3: for every request whose token extracts non-empty but whose
validation raises a `JOSEError`, the wrapper raises `Unauthorized` whose
description is the string rendering of the validation failure, and never
invokes the handler. -/
theorem wrapper_validation_failure_unauthorized {α β : Type}
    (c : Collaborators) (uri : String) (func : α → β) (headers : Headers)
    (g : GContext) (args : α) (t : String) (k : Key) (e : JOSEError)
    (ht : c._get_token headers = some t) (hne : t ≠ "")
    (hk : c.keys uri = .ok k) (hv : c.validate t k = .error e) :
    requires_authentication_wrapper c uri func headers g args =
      (.error (.unauthorized (some e.msg)), { g with token := some (some t) },
       []) := by
  simp [requires_authentication_wrapper, ht, hne, hk, hv]

/-- C3 witness at a concrete request carrying a token the validator
rejects. -/
theorem wrapper_validation_failure_unauthorized_witness :
    requires_authentication_wrapper goodCollab "https://jwks.example" (· + 1)
      [("Authorization", "evil")] GContext.empty (5 : Nat) =
      (.error (.unauthorized (some "bad signature")),
       { token := some (some "evil"), token_body := none }, []) :=
  wrapper_validation_failure_unauthorized goodCollab "https://jwks.example"
    (· + 1) [("Authorization", "evil")] GContext.empty 5 "evil" "jwk"
    ⟨"bad signature"⟩ rfl (by decide) rfl rfl

/-- C4: for every request whose token extracts non-empty, a failure of the
key-retrieval collaborator propagates from the wrapper as `Unauthorized`
(never any other error class) and the handler is not invoked.  The
`keys` collaborator is modelled from the spec as failing with `JOSEError`,
which the wrapper's `except` clause converts to `Unauthorized`. -/
theorem wrapper_keys_failure_unauthorized {α β : Type} (c : Collaborators)
    (uri : String) (func : α → β) (headers : Headers) (g : GContext)
    (args : α) (t : String) (e : JOSEError)
    (ht : c._get_token headers = some t) (hne : t ≠ "")
    (hk : c.keys uri = .error e) :
    requires_authentication_wrapper c uri func headers g args =
      (.error (.unauthorized (some e.msg)), { g with token := some (some t) },
       []) := by
  simp [requires_authentication_wrapper, ht, hne, hk]

/-- C4 witness at a concrete request whose JWKS fetch fails. -/
theorem wrapper_keys_failure_unauthorized_witness :
    requires_authentication_wrapper keysFailCollab "https://jwks.example"
      (· + 1) [("Authorization", "tok")] GContext.empty (5 : Nat) =
      (.error (.unauthorized (some "could not fetch JWKS document")),
       { token := some (some "tok"), token_body := none }, []) :=
  wrapper_keys_failure_unauthorized keysFailCollab "https://jwks.example"
    (· + 1) [("Authorization", "tok")] GContext.empty 5 "tok"
    ⟨"could not fetch JWKS document"⟩ rfl (by decide) rfl

/-- C5: evaluation at the failing input.  Inside a request context carrying
a well-formed JWS whose payload is not valid JSON, `json.loads` raises a
`ValueError`, the `except exceptions.JOSEError` clause does not catch it,
and `UserIdFilter.filter` raises instead of yielding an empty identifier:
the claim that the filter never raises is violated by the code. -/
theorem filter_raises_on_non_json_payload :
    UserIdFilter.filter ⟨"sub", ""⟩ nonJsonPayloadCollab
      (some ([("Authorization", "tok")], GContext.empty)) {} =
      .error ⟨"Expecting value: line 1 column 1 (char 0)"⟩ := rfl

/-- C6: counterexample.  The claim says a set `token_body` is always
reused; but the source guards the reuse with Python truthiness, so a
context whose `token_body` is set to the *empty* claims mapping is not
reused: the filter performs a fresh unverified decode and reports the
identifier `"fresh"` from it, while the stored mapping's lookup would have
produced `""`. -/
theorem filter_set_empty_token_body_not_reused :
    ({ token := none, token_body := some ([] : Claims) } : GContext).token_body
        = some [] ∧
      UserIdFilter.filter ⟨"sub", ""⟩ freshDecodeCollab
          (some ([], { token := none, token_body := some ([] : Claims) })) {} =
        .ok ({ msg := "", user_id := some "fresh" }, true) ∧
      claimsGet [] "sub" "" = "" :=
  ⟨rfl, rfl, rfl⟩

/-- C6 amended: for every request context whose `token_body` is set to a
*non-empty* claims mapping, the filter reuses the stored mapping — for any
behaviour of the collaborators, so no fresh unverified decode can influence
the result. -/
theorem filter_reuses_nonempty_token_body (f : UserIdFilter)
    (c : Collaborators) (headers : Headers) (g : GContext)
    (record : LogRecord) (body : Claims) (hb : g.token_body = some body)
    (hne : body ≠ []) :
    UserIdFilter.filter f c (some (headers, g)) record =
      .ok ({ record with
               user_id := some (claimsGet body f.token_field_name "") },
           true) := by
  cases body with
  | nil => exact absurd rfl hne
  | cons p l => simp [UserIdFilter.filter, _extract_token_body, hb]

/-- C6 amended, witness at a concrete context storing non-empty validated
claims, against collaborators whose fresh decode would have produced a
different identifier. -/
theorem filter_reuses_nonempty_token_body_witness :
    UserIdFilter.filter ⟨"sub", ""⟩ freshDecodeCollab
        (some ([], { token := none,
                     token_body := some [("sub", "user-42")] })) {} =
      .ok ({ ({} : LogRecord) with
               user_id := some (claimsGet [("sub", "user-42")] "sub" "") },
           true) ∧
      claimsGet [("sub", "user-42")] "sub" "" = "user-42" :=
  ⟨filter_reuses_nonempty_token_body ⟨"sub", ""⟩ freshDecodeCollab []
      { token := none, token_body := some [("sub", "user-42")] } {}
      [("sub", "user-42")] rfl (by decide),
    rfl⟩

/-- C7: evaluation at the failing input.  The claim says the filter always
sets `user_id` and returns the keep result; on a request whose JWS payload
is not valid JSON the filter instead raises the uncaught `ValueError`, so
it neither sets `user_id` nor returns `True` there. -/
theorem filter_non_json_payload_no_keep_result :
    UserIdFilter.filter ⟨"email", ""⟩ nonJsonPayloadCollab
      (some ([("Authorization", "tok2")], GContext.empty)) { msg := "m" } =
      .error ⟨"Expecting value: line 1 column 1 (char 0)"⟩ := rfl

/-- C8: outside any request context, the filter sets `user_id` to the empty
string and returns the keep-the-record result, for every record, filter
configuration and collaborator behaviour. -/
theorem filter_no_request_context_empty_user_id (f : UserIdFilter)
    (c : Collaborators) (record : LogRecord) :
    UserIdFilter.filter f c none record =
      .ok ({ record with user_id := some "" }, true) := rfl

/-- C9: within one fixed request-context state (same headers, same stored
token/claims, same collaborators), repeated filter invocations assign the
same `user_id` value to every record: the outcome projected to the assigned
`user_id` does not depend on the record. -/
theorem filter_user_id_deterministic (f : UserIdFilter) (c : Collaborators)
    (ctx : Option (Headers × GContext)) (r1 r2 : LogRecord) :
    (UserIdFilter.filter f c ctx r1).map (fun p => p.1.user_id) =
      (UserIdFilter.filter f c ctx r2).map (fun p => p.1.user_id) := by
  cases ctx with
  | none => rfl
  | some p =>
    obtain ⟨headers, g⟩ := p
    cases h : _extract_token_body c headers g <;>
      simp [UserIdFilter.filter, h, Except.map]

/-- C10: whenever the wrapper, started on a fresh request context, raises
an unauthorized error, the context's `token` attribute has already been set
to the extraction collaborator's result while `token_body` is left unset:
the context is mutated even on the error path. -/
theorem wrapper_error_sets_token_leaves_body_unset {α β : Type}
    (c : Collaborators) (uri : String) (func : α → β) (headers : Headers)
    (args : α) (err : HTTPException)
    (h : (requires_authentication_wrapper c uri func headers GContext.empty
            args).1 = .error err) :
    (requires_authentication_wrapper c uri func headers GContext.empty
        args).2.1 =
      { token := some (c._get_token headers), token_body := none } := by
  unfold requires_authentication_wrapper at h ⊢
  cases ht : c._get_token headers with
  | none => simp [ht, GContext.empty]
  | some s =>
    by_cases hs : s == ""
    · simp [ht, hs, GContext.empty]
    · cases hk : c.keys uri with
      | error e => simp [ht, hs, hk, GContext.empty]
      | ok k =>
        cases hv : c.validate s k with
        | error e => simp [ht, hs, hk, hv, GContext.empty]
        | ok body => simp [ht, hs, hk, hv] at h

/-- C10 witness at a concrete request with no extractable token. -/
theorem wrapper_error_sets_token_leaves_body_unset_witness :
    (requires_authentication_wrapper noTokenCollab "https://jwks.example"
        (· + 1) [] GContext.empty (5 : Nat)).2.1 =
      { token := some (noTokenCollab._get_token []), token_body := none } :=
  wrapper_error_sets_token_leaves_body_unset noTokenCollab
    "https://jwks.example" (· + 1) [] 5 (.unauthorized none) rfl
